import Mathlib

/-!
Verification of the upload pipeline of a Telegram-to-Immich bridge bot
(`app/bot.py`), against its natural-language specification.

The Python module is shallowly embedded: pure helpers (`format_iso_date`,
`get_file_type`, `calculate_sha1`, `is_user_allowed`, EXIF date parsing)
become Lean functions on `Nat` / `List` / `String`; the event handlers
(`handle_document`, `handle_photo`, `handle_video`, `handle_message`, the
four command handlers) become pure functions from an environment (the
results of the external network and filesystem calls the handler makes)
and an inbound event to a `HandlerResult` recording the outbound replies,
temporary-file lifecycle and exit mode of that invocation.

External collaborators (the Telegram client library, the `requests` HTTP
client, PIL/hachoir metadata extraction, the `hashlib` SHA-1 object) are
modelled at their call boundaries: their outputs are inputs of the
embedding.  `hashlib`'s documented contract (feeding chunks via `update`
is equivalent to feeding their concatenation) is realised by accumulating
the absorbed bytes and hashing them with a concrete SHA-1 implementation.
-/

set_option maxRecDepth 100000

namespace ImmichBot

/-! ### Datetime values and `format_iso_date` (bot.py lines 84-86)

A `datetime` value is represented by its fields.  Python's `datetime`
enforces `1 ≤ year ≤ 9999`, `1 ≤ month ≤ 12`, etc. at construction, so
fixed-width zero-padded rendering below coincides with `strftime`'s
minimum-width padding on every constructible value. -/

structure Datetime where
  year : Nat
  month : Nat
  day : Nat
  hour : Nat
  minute : Nat
  second : Nat
  microsecond : Nat
deriving DecidableEq

/-- Fixed-width zero-padded decimal digits of `n` (little code, used for
every `strftime` field; `w` is the field width). -/
def padDigits : Nat → Nat → List Char
  | 0, _ => []
  | w + 1, n => padDigits w (n / 10) ++ [Char.ofNat (48 + n % 10)]

/-- The characters of `dt.strftime("%Y-%m-%dT%H:%M:%S.%f")`. -/
def strftimeIso (dt : Datetime) : List Char :=
  padDigits 4 dt.year ++ '-' :: padDigits 2 dt.month ++ '-' :: padDigits 2 dt.day
    ++ 'T' :: padDigits 2 dt.hour ++ ':' :: padDigits 2 dt.minute
    ++ ':' :: padDigits 2 dt.second ++ '.' :: padDigits 6 dt.microsecond

/-- `format_iso_date`:
`dt.strftime("%Y-%m-%dT%H:%M:%S.%f")[:-3] + "Z"` (bot.py line 86). -/
def format_iso_date (dt : Datetime) : String :=
  String.mk ((strftimeIso dt).take ((strftimeIso dt).length - 3) ++ ['Z'])

/-! ### `datetime.strptime(s, '%Y:%m:%d %H:%M:%S')` (bot.py lines 96, 102)

`strptime` greedily matches up to 4 digits for `%Y` and up to 2 for the
other fields (at least one each), requires the literal separators and the
whole string consumed, and range-checks the fields; `datetime` validates
the day against the actual month length. -/

/-- Greedy digit run: having read first digit value `acc`, read at most
`w` further digits. -/
def grabDigitsAcc : Nat → Nat → List Char → Nat × List Char
  | 0, acc, cs => (acc, cs)
  | _ + 1, acc, [] => (acc, [])
  | w + 1, acc, c :: cs =>
    if c.isDigit then grabDigitsAcc w (acc * 10 + (c.toNat - 48)) cs
    else (acc, c :: cs)

/-- Read between 1 and `w` digits from the front of `cs`. -/
def grabDigits (w : Nat) (cs : List Char) : Option (Nat × List Char) :=
  match cs with
  | [] => none
  | c :: rest =>
    if c.isDigit then some (grabDigitsAcc (w - 1) (c.toNat - 48) rest) else none

/-- Consume one expected literal character. -/
def expectChar (c : Char) : List Char → Option (List Char)
  | [] => none
  | d :: rest => if d = c then some rest else none

def isLeapYear (y : Nat) : Bool :=
  (y % 4 = 0 && y % 100 ≠ 0) || y % 400 = 0

def daysInMonth (y mo : Nat) : Nat :=
  if mo = 2 then (if isLeapYear y then 29 else 28)
  else if mo = 4 || mo = 6 || mo = 9 || mo = 11 then 30
  else 31

/-- `datetime.strptime(s, '%Y:%m:%d %H:%M:%S')`, returning `none` where
Python raises `ValueError`. -/
def strptimeExif (s : String) : Option Datetime := do
  let (y, r) ← grabDigits 4 s.toList
  let r ← expectChar ':' r
  let (mo, r) ← grabDigits 2 r
  let r ← expectChar ':' r
  let (d, r) ← grabDigits 2 r
  let r ← expectChar ' ' r
  let (h, r) ← grabDigits 2 r
  let r ← expectChar ':' r
  let (mi, r) ← grabDigits 2 r
  let r ← expectChar ':' r
  let (se, r) ← grabDigits 2 r
  guard (r = [] && 1 ≤ y && y ≤ 9999 && 1 ≤ mo && mo ≤ 12 && 1 ≤ d
    && d ≤ daysInMonth y mo && h ≤ 23 && mi ≤ 59 && se ≤ 59)
  pure ⟨y, mo, d, h, mi, se, 0⟩

/-! ### `calculate_sha1` (bot.py lines 134-143)

The file's bytes are read in 64 KiB chunks (`f.read(65536)`), each fed to
the hash object with `sha1.update(data)`.  `hashlib`'s contract makes a
sequence of `update` calls equivalent to a single `update` on the
concatenation, so the hash object state is modelled as the list of bytes
absorbed so far and `hexdigest` as a concrete SHA-1 over those bytes
(machine words are `Nat` reduced mod `2 ^ 32`). -/

/-- One word, reduced mod `2 ^ 32`. -/
def w32 (n : Nat) : Nat := n % 4294967296

/-- Rotate a 32-bit word left by `b` bits (`b < 32`, `n < 2 ^ 32`). -/
def rotl32 (b n : Nat) : Nat := w32 (n * 2 ^ b + n / 2 ^ (32 - b))

/-- Big-endian 32-bit words from a byte list (groups of 4). -/
def bytesToWords : List Nat → List Nat
  | b0 :: b1 :: b2 :: b3 :: rest =>
    (b0 * 16777216 + b1 * 65536 + b2 * 256 + b3) :: bytesToWords rest
  | _ => []

/-- Append the next word of the SHA-1 message schedule. -/
def sha1ExtendStep (w : List Nat) : List Nat :=
  let n := w.length
  w ++ [rotl32 1 ((w.getD (n - 3) 0) ^^^ (w.getD (n - 8) 0)
    ^^^ (w.getD (n - 14) 0) ^^^ (w.getD (n - 16) 0))]

/-- Expand the 16 block words to the 80-word schedule. -/
def sha1Schedule (w : List Nat) : List Nat :=
  (List.range 64).foldl (fun acc _ => sha1ExtendStep acc) w

/-- The round function `f_t`. -/
def sha1F (t b c d : Nat) : Nat :=
  if t < 20 then (b &&& c) ||| ((4294967295 - b) &&& d)
  else if t < 40 then b ^^^ c ^^^ d
  else if t < 60 then (b &&& c) ||| (b &&& d) ||| (c &&& d)
  else b ^^^ c ^^^ d

/-- The round constant `K_t`. -/
def sha1K (t : Nat) : Nat :=
  if t < 20 then 1518500249
  else if t < 40 then 1859775393
  else if t < 60 then 2400959708
  else 3395469782

/-- One SHA-1 round: state `(a, b, c, d, e)`, input `(t, W_t)`. -/
def sha1Round (st : Nat × Nat × Nat × Nat × Nat) (tw : Nat × Nat) :
    Nat × Nat × Nat × Nat × Nat :=
  let (a, b, c, d, e) := st
  let (t, wt) := tw
  (w32 (rotl32 5 a + sha1F t b c d + e + sha1K t + wt), a, rotl32 30 b, c, d)

/-- Process one 64-byte block. -/
def sha1Block (h : Nat × Nat × Nat × Nat × Nat) (block : List Nat) :
    Nat × Nat × Nat × Nat × Nat :=
  let ws := sha1Schedule (bytesToWords block)
  let (a, b, c, d, e) := ((List.range 80).zip ws).foldl sha1Round h
  (w32 (h.1 + a), w32 (h.2.1 + b), w32 (h.2.2.1 + c),
    w32 (h.2.2.2.1 + d), w32 (h.2.2.2.2 + e))

/-- Big-endian 8-byte rendering of the message bit length. -/
def be8 (n : Nat) : List Nat :=
  [n / 2 ^ 56 % 256, n / 2 ^ 48 % 256, n / 2 ^ 40 % 256, n / 2 ^ 32 % 256,
   n / 2 ^ 24 % 256, n / 2 ^ 16 % 256, n / 2 ^ 8 % 256, n % 256]

/-- Big-endian 4-byte rendering of a 32-bit word. -/
def be4 (n : Nat) : List Nat :=
  [n / 2 ^ 24 % 256, n / 2 ^ 16 % 256, n / 2 ^ 8 % 256, n % 256]

/-- SHA-1 padding: `0x80`, zeros to 56 mod 64, 8-byte bit length. -/
def sha1Pad (msg : List Nat) : List Nat :=
  msg ++ 128 :: List.replicate ((120 - (msg.length + 1) % 64) % 64) 0
    ++ be8 (msg.length * 8)

/-- The `f.read(chunkSize)` loop of `calculate_sha1`, with an explicit
iteration bound: each read returns the next `chunkSize` bytes (fewer at
the end) and the loop stops at the first empty read.  Every productive
read consumes at least one byte, so `fuel = bs.length` iterations always
suffice (see `readChunks`). -/
def readChunksAux : Nat → Nat → List Nat → List (List Nat)
  | 0, _, _ => []
  | fuel + 1, chunkSize, bs =>
    if (bs.take chunkSize).isEmpty then []
    else bs.take chunkSize :: readChunksAux fuel chunkSize (bs.drop chunkSize)

/-- The successive results of the `f.read(chunkSize)` loop of
`calculate_sha1`. -/
def readChunks (chunkSize : Nat) (bs : List Nat) : List (List Nat) :=
  readChunksAux bs.length chunkSize bs

/-- The 20 digest bytes of SHA-1 over a byte list. -/
def sha1Digest (msg : List Nat) : List Nat :=
  let blocks := readChunks 64 (sha1Pad msg)
  let h := blocks.foldl sha1Block
    (1732584193, 4023233417, 2562383102, 271733878, 3285377520)
  be4 h.1 ++ be4 h.2.1 ++ be4 h.2.2.1 ++ be4 h.2.2.2.1 ++ be4 h.2.2.2.2

/-- Lowercase hex character of a nibble. -/
def hexChar (n : Nat) : Char :=
  if n < 10 then Char.ofNat (48 + n) else Char.ofNat (87 + n)

/-- Two hex characters of a byte. -/
def byteHex (b : Nat) : List Char := [hexChar (b / 16), hexChar (b % 16)]

/-- `sha1.hexdigest()` of an absorbed byte list. -/
def sha1Hex (msg : List Nat) : String :=
  String.mk ((sha1Digest msg).map byteHex).flatten

/-- The bytes absorbed by the `update` loop of `calculate_sha1` when the
file is read in `chunkSize`-byte chunks (the hash object state). -/
def sha1Absorb (chunkSize : Nat) (file : List Nat) : List Nat :=
  (readChunks chunkSize file).foldl (fun acc d => acc ++ d) []

/-- `calculate_sha1` (bot.py lines 134-143): stream the file in 64 KiB
chunks through `sha1.update` and return `sha1.hexdigest()`. -/
def calculate_sha1 (file_bytes : List Nat) : String :=
  sha1Hex (sha1Absorb 65536 file_bytes)

/-! ### `is_user_allowed` (bot.py lines 78-82) -/

def is_user_allowed (allowed_user_ids : List Int) (user_id : Int) : Bool :=
  if allowed_user_ids.isEmpty then true else allowed_user_ids.contains user_id

/-! ### `get_file_type` (bot.py lines 63-76)

`os.path.splitext(file_path)[1].lower()` plus `mimetypes.guess_type`.
`mimetypes` consults an environment-supplied type table, so the guess is a
function parameter of the embedding. -/

/-- State of the `os.path.splitext` fold over the basename characters:
whether a non-dot character has been seen, and the current extension
candidate (the suffix from the last dot preceded by some non-dot
character, including that dot). -/
def splitextStep (st : Bool × Option (List Char)) (c : Char) :
    Bool × Option (List Char) :=
  if c = '.' then (st.1, if st.1 then some ['.'] else none)
  else (true, st.2.map (fun e => e ++ [c]))

/-- The extension part of `os.path.splitext(p)`: the suffix of the
basename from its last `'.'`, provided a non-dot basename character
precedes that dot (so dotfiles such as `".bashrc"` have no extension). -/
def splitextExt (p : String) : String :=
  let basename := ((p.toList.reverse.takeWhile (fun c => c ≠ '/')).reverse)
  String.mk (((basename.foldl splitextStep (false, none)).2).getD [])

def SUPPORTED_IMAGE_EXTENSIONS : List String :=
  [".png", ".jpg", ".jpeg", ".gif", ".bmp", ".tiff", ".heic", ".heif", ".webp"]

def SUPPORTED_VIDEO_EXTENSIONS : List String :=
  [".mp4", ".mov", ".avi", ".mkv", ".webm", ".3gp", ".m4v"]

/-- `os.path.splitext(file_path)[1].lower()` (bot.py line 65). -/
def extLower (file_path : String) : String :=
  String.mk ((splitextExt file_path).toList.map Char.toLower)

/-- `get_file_type(file_path)` (bot.py lines 63-76); `guess_type` stands
for `mimetypes.guess_type`, whose result (`None` or a type string) is
environment data. -/
def get_file_type (guess_type : String → Option String) (file_path : String) :
    String :=
  let ext := extLower file_path
  let mime_type := guess_type file_path
  if SUPPORTED_IMAGE_EXTENSIONS.contains ext then "image"
  else if SUPPORTED_VIDEO_EXTENSIONS.contains ext then "video"
  else
    match mime_type with
    | some m =>
      if m.startsWith "video/" then "video"
      else if m.startsWith "image/" then "image"
      else "other"
    | none => "other"

/-! ### Image/video metadata (bot.py lines 88-132)

What PIL's `Image.open(...)._getexif()` and hachoir report for the
downloaded file are external inputs; the downstream logic on them is
embedded exactly. -/

/-- The EXIF fields `get_image_metadata` consults, as reported by PIL;
`none` in `FileOnDisk.image_exif` stands for `Image.open` raising (not an
image at all). -/
structure ExifData where
  dateTimeOriginal : Option String
  dateTime : Option String
deriving DecidableEq

/-- A downloaded file as seen by the pipeline: its raw bytes, what PIL
reports for it, and what hachoir reports for it. -/
structure FileOnDisk where
  bytes : List Nat
  image_exif : Option ExifData
  video_meta : Option Datetime
deriving DecidableEq

/-- `get_image_metadata` (bot.py lines 88-109).  `DateTimeOriginal` is
consulted first, else `DateTime`; a missing date or any parse failure
raises, re-raised by the blanket handler as
`ValueError("Could not extract image metadata")`.  There is no fallback
to file-system modification time. -/
def get_image_metadata (img : Option ExifData) (now : Datetime) :
    Except String (String × String) :=
  match img with
  | none => .error "Could not extract image metadata"
  | some e =>
    match e.dateTimeOriginal with
    | some s =>
      match strptimeExif s with
      | some dt => .ok (format_iso_date dt, format_iso_date now)
      | none => .error "Could not extract image metadata"
    | none =>
      match e.dateTime with
      | some s =>
        match strptimeExif s with
        | some dt => .ok (format_iso_date dt, format_iso_date now)
        | none => .error "Could not extract image metadata"
      | none => .error "Could not extract image metadata"

/-- `get_video_metadata` (bot.py lines 111-132).  A `None` parser or
missing metadata returns `None` (whose unpacking in the caller raises),
and a missing creation date raises `ValueError`; all of these surface to
the caller's blanket handler identically, so they are merged into
`.error`. -/
def get_video_metadata (meta : Option Datetime) :
    Except String (String × String) :=
  match meta with
  | some dt => .ok (format_iso_date dt, format_iso_date dt)
  | none => .error "Could not extract video metadata"

/-! ### Upload to Immich (bot.py lines 284-365)

The `requests.post` response and its parsed JSON body are environment
data; `response.json()` raising on a non-JSON body is `json = none`. -/

/-- An HTTP response as `upload_to_immich` observes it: status code, body
text, and the result of `response.json()` (`none` when the body is not
JSON, in which case `.json()` raises). JSON field values are the strings
the code compares against. -/
structure HttpResponse where
  status_code : Nat
  text : String
  json : Option (List (String × String))
deriving DecidableEq

/-- Every `reply_text` call site of the module, with its dynamic parts.
Exception message text interpolated from `str(e)` is abstracted where no
claim depends on it. -/
inductive Reply where
  | connectError
  | downloadFailed
  | unsupportedType
  | duplicate (file_type : String)
  | uploadSuccess (file_type : String)
  | uploadFailed (file_type : String) (body : String)
  | uploadException
  | unexpectedError
  | errorOccurred
  | immichConnected
  | helpText (immich_status user_info : String)
  | versionText
  | filesText
deriving DecidableEq

/-- The form fields and checksum header of the `POST /assets` request
(bot.py lines 328-341). -/
structure UploadData where
  deviceAssetId : String
  deviceId : String
  fileCreatedAt : String
  fileModifiedAt : String
  isFavorite : String
  visibility : String
  checksum : String
deriving DecidableEq

/-- The creation-date resolution of `upload_to_immich` (bot.py lines
297-320): try file metadata (exceptions caught and dropped), then the
message date, then the current time. -/
def resolve_created_at (file_type : String) (f : FileOnDisk)
    (message_date : Option Datetime) (now : Datetime) : String :=
  let file_created_at : Option String :=
    if file_type = "image" then
      match get_image_metadata f.image_exif now with
      | .ok (c, _) => some c
      | .error _ => none
    else if file_type = "video" then
      match get_video_metadata f.video_meta with
      | .ok (c, _) => some c
      | .error _ => none
    else none
  match file_created_at with
  | some c => c
  | none =>
    match message_date with
    | some d => format_iso_date d
    | none => format_iso_date now

/-- The multipart form data built by `upload_to_immich` (bot.py lines
322-341); `fileModifiedAt` is set to the same resolved value. -/
def build_upload_data (f : FileOnDisk) (file_name file_type : String)
    (message_date : Option Datetime) (now : Datetime) : UploadData :=
  let file_created_at := resolve_created_at file_type f message_date now
  { deviceAssetId := file_name ++ "-" ++ toString f.bytes.length,
    deviceId := "telegram-bot-device",
    fileCreatedAt := file_created_at,
    fileModifiedAt := file_created_at,
    isFavorite := "false",
    visibility := "timeline",
    checksum := calculate_sha1 f.bytes }

/-- Environment of one handler invocation: the static configuration plus
the outcome of every external call the handler makes.  `reachable` is the
result of `check_immich_connection()`; `download_succeeds` whether
`download_to_drive` materialises the file; `post_succeeds` whether
`requests.post` returns (rather than raising); `reply_raises` models an
exception escaping the upload step (e.g. a failing `reply_text`) into the
handler's blanket `except`; `immich_status`/`user_info` are the strings
`get_immich_status()` returns. -/
structure Env where
  allowed_user_ids : List Int
  reachable : Bool
  download_succeeds : Bool
  file : FileOnDisk
  post_succeeds : Bool
  response : HttpResponse
  now : Datetime
  guess_type : String → Option String
  reply_raises : Bool
  immich_status : String
  user_info : String

/-- `upload_to_immich` (bot.py lines 284-365): returns the replies it
sends and the form data it built for the POST.  Status 200/201 first
parses the body (`response.json()`, raising on non-JSON into the blanket
handler); 200 with `status == "duplicate"` replies duplicate; other
200/201 replies success; any other status replies failure carrying
`response.text`; a raising POST hits the blanket handler.  No retry is
performed: exactly one POST, one final reply. -/
def upload_to_immich (env : Env) (f : FileOnDisk) (file_name file_type : String)
    (message_date : Option Datetime) : List Reply × Option UploadData :=
  let data := build_upload_data f file_name file_type message_date env.now
  if !env.post_succeeds then ([.uploadException], some data)
  else if env.response.status_code = 200 || env.response.status_code = 201 then
    match env.response.json with
    | none => ([.uploadException], some data)
    | some j =>
      if env.response.status_code = 200 && List.lookup "status" j = some "duplicate"
      then ([.duplicate file_type], some data)
      else ([.uploadSuccess file_type], some data)
  else ([.uploadFailed file_type env.response.text], some data)

/-! ### Event handlers (bot.py lines 367-528) -/

/-- How a handler invocation ended: a normal return, or a propagating
`UnboundLocalError` on the named variable. -/
inductive Exit where
  | normal
  | unboundLocal (var : String)
deriving DecidableEq

/-- Observable outcome of one handler invocation: replies sent to the
sender (in order), whether a temporary file was materialised on disk,
whether it is still on disk when the handler returns, the exit mode, and
the form data of the POST if one was attempted. -/
structure HandlerResult where
  replies : List Reply
  tempCreated : Bool
  tempAtReturn : Bool
  exit : Exit
  uploadData : Option UploadData
deriving DecidableEq

/-- `message_date = getattr(update.message, 'forward_date', None) or
update.message.date` (bot.py lines 407, 452, 500). -/
def message_date_of (forward_date : Option Datetime) (date : Datetime) :
    Datetime :=
  forward_date.getD date

structure DocEvent where
  user_id : Int
  file_id : String
  file_name : String
  date : Datetime
  forward_date : Option Datetime
deriving DecidableEq

structure PhotoEvent where
  user_id : Int
  file_id : String
  date : Datetime
  forward_date : Option Datetime
deriving DecidableEq

structure VideoEvent where
  user_id : Int
  file_id : String
  file_name : Option String
  file_size : Nat
  date : Datetime
  forward_date : Option Datetime
deriving DecidableEq

/-- `handle_document` (bot.py lines 367-417).  The connectivity check
precedes the permission check; the permission check sits inside the
`try`, before `temp_file_path` is assigned, so its `return` runs the
`finally` clause, whose `os.path.exists(temp_file_path)` read of the
still-unassigned local raises `UnboundLocalError`. -/
def handle_document (env : Env) (ev : DocEvent) : HandlerResult :=
  if !env.reachable then
    { replies := [.connectError], tempCreated := false, tempAtReturn := false,
      exit := .normal, uploadData := none }
  else if !is_user_allowed env.allowed_user_ids ev.user_id then
    { replies := [], tempCreated := false, tempAtReturn := false,
      exit := .unboundLocal "temp_file_path", uploadData := none }
  else if !env.download_succeeds then
    { replies := [.downloadFailed], tempCreated := false, tempAtReturn := false,
      exit := .normal, uploadData := none }
  else if get_file_type env.guess_type ev.file_name = "other" then
    { replies := [.unsupportedType], tempCreated := true, tempAtReturn := false,
      exit := .normal, uploadData := none }
  else if env.reply_raises then
    { replies := [.unexpectedError], tempCreated := true, tempAtReturn := false,
      exit := .normal, uploadData := none }
  else
    let r := upload_to_immich env env.file ev.file_name
      (get_file_type env.guess_type ev.file_name)
      (some (message_date_of ev.forward_date ev.date))
    { replies := r.1, tempCreated := true, tempAtReturn := false,
      exit := .normal, uploadData := r.2 }

/-- `handle_photo` (bot.py lines 419-462).  The permission check precedes
the `try`, so an unauthorised sender returns normally with no reply; the
file name is generated and the type is fixed to `"image"`. -/
def handle_photo (env : Env) (ev : PhotoEvent) : HandlerResult :=
  if !env.reachable then
    { replies := [.connectError], tempCreated := false, tempAtReturn := false,
      exit := .normal, uploadData := none }
  else if !is_user_allowed env.allowed_user_ids ev.user_id then
    { replies := [], tempCreated := false, tempAtReturn := false,
      exit := .normal, uploadData := none }
  else if !env.download_succeeds then
    { replies := [.downloadFailed], tempCreated := false, tempAtReturn := false,
      exit := .normal, uploadData := none }
  else if env.reply_raises then
    { replies := [.errorOccurred], tempCreated := true, tempAtReturn := false,
      exit := .normal, uploadData := none }
  else
    let r := upload_to_immich env env.file ("photo_" ++ ev.file_id ++ ".jpg")
      "image" (some (message_date_of ev.forward_date ev.date))
    { replies := r.1, tempCreated := true, tempAtReturn := false,
      exit := .normal, uploadData := r.2 }

/-- `handle_video` (bot.py lines 464-510).  The permission check precedes
the `try`; the type is fixed to `"video"`; the declared
`video.file_size` is never consulted — there is no size limit in this
handler. -/
def handle_video (env : Env) (ev : VideoEvent) : HandlerResult :=
  if !env.reachable then
    { replies := [.connectError], tempCreated := false, tempAtReturn := false,
      exit := .normal, uploadData := none }
  else if !is_user_allowed env.allowed_user_ids ev.user_id then
    { replies := [], tempCreated := false, tempAtReturn := false,
      exit := .normal, uploadData := none }
  else if !env.download_succeeds then
    { replies := [.downloadFailed], tempCreated := false, tempAtReturn := false,
      exit := .normal, uploadData := none }
  else if env.reply_raises then
    { replies := [.errorOccurred], tempCreated := true, tempAtReturn := false,
      exit := .normal, uploadData := none }
  else
    let r := upload_to_immich env env.file
      (ev.file_name.getD ("video_" ++ ev.file_id ++ ".mp4"))
      "video" (some (message_date_of ev.forward_date ev.date))
    { replies := r.1, tempCreated := true, tempAtReturn := false,
      exit := .normal, uploadData := r.2 }

/-- `handle_message` (bot.py lines 512-528): the permission check comes
first (silent drop), then connectivity decides between two replies. -/
def handle_message (env : Env) (user_id : Int) : List Reply :=
  if !is_user_allowed env.allowed_user_ids user_id then []
  else if !env.reachable then [.connectError]
  else [.immichConnected]

/-! ### Command handlers (bot.py lines 255-282)

Each receives the update (whose `from_user` identifies the sender) but
never reads it beyond replying, and none consults `is_user_allowed`; the
sender id is kept as an (unread) argument to state that. -/

/-- `help_command` (bot.py lines 255-270): replies with the
`get_immich_status()` result. -/
def help_command (env : Env) (_user_id : Int) : List Reply :=
  [.helpText env.immich_status env.user_info]

/-- `start` (bot.py lines 272-274): alias for `help_command`. -/
def start (env : Env) (user_id : Int) : List Reply :=
  help_command env user_id

/-- `version` (bot.py lines 276-278). -/
def version (_env : Env) (_user_id : Int) : List Reply :=
  [.versionText]

/-- `files` (bot.py lines 280-282). -/
def files (_env : Env) (_user_id : Int) : List Reply :=
  [.filesText]

/-! ### Supporting lemmas -/

theorem foldl_append_eq (l : List (List Nat)) (a : List Nat) :
    l.foldl (fun acc d => acc ++ d) a = a ++ l.flatten := by
  induction l generalizing a with
  | nil => simp
  | cons x xs ih => simp [ih, List.append_assoc]

theorem readChunksAux_flatten (c : Nat) (hc : 0 < c) :
    ∀ (fuel : Nat) (file : List Nat), file.length ≤ fuel →
      (readChunksAux fuel c file).flatten = file := by
  intro fuel
  induction fuel with
  | zero =>
    intro file hlen
    have : file = [] := List.eq_nil_of_length_eq_zero (by omega)
    simp [this, readChunksAux]
  | succ fuel ih =>
    intro file hlen
    rw [readChunksAux]
    by_cases h : (file.take c).isEmpty
    · simp only [if_pos h]
      simp only [List.isEmpty_iff, List.take_eq_nil_iff] at h
      rcases h with h | h
      · exact absurd h (by omega)
      · simp [h]
    · simp only [if_neg h]
      rw [List.flatten_cons]
      simp only [List.isEmpty_iff, List.take_eq_nil_iff, not_or] at h
      have hfile : file ≠ [] := h.2
      have hpos : 0 < file.length := List.length_pos.mpr hfile
      rw [ih (file.drop c) (by simp only [List.length_drop]; omega)]
      exact List.take_append_drop c file

theorem readChunks_flatten (c : Nat) (hc : 0 < c) (file : List Nat) :
    (readChunks c file).flatten = file :=
  readChunksAux_flatten c hc file.length file le_rfl

theorem readChunksAux_mem (c : Nat) (chunk : List Nat) :
    ∀ (fuel : Nat) (file : List Nat), chunk ∈ readChunksAux fuel c file →
      chunk.length ≤ c ∧ chunk ≠ [] := by
  intro fuel
  induction fuel with
  | zero =>
    intro file h
    exact absurd h (List.not_mem_nil chunk)
  | succ fuel ih =>
    intro file h
    rw [readChunksAux] at h
    by_cases he : (file.take c).isEmpty
    · rw [if_pos he] at h
      exact absurd h (List.not_mem_nil chunk)
    · rw [if_neg he] at h
      rw [List.mem_cons] at h
      simp only [List.isEmpty_iff, List.take_eq_nil_iff, not_or] at he
      rcases h with h | h
      · subst h
        refine ⟨List.length_take_le c file, ?_⟩
        intro hnil
        rcases List.take_eq_nil_iff.mp hnil with h2 | h2
        · exact he.1 h2
        · exact he.2 h2
      · exact ih (file.drop c) h

theorem readChunks_mem (c : Nat) (file chunk : List Nat)
    (h : chunk ∈ readChunks c file) : chunk.length ≤ c ∧ chunk ≠ [] :=
  readChunksAux_mem c chunk file.length file h

theorem sha1Absorb_eq (c : Nat) (hc : 0 < c) (file : List Nat) :
    sha1Absorb c file = file := by
  rw [sha1Absorb, foldl_append_eq, List.nil_append, readChunks_flatten c hc]

theorem padDigits_length (w : Nat) : ∀ n, (padDigits w n).length = w := by
  induction w with
  | zero => intro n; rfl
  | succ w ih => intro n; simp [padDigits, ih]

theorem padDigits_six (n : Nat) :
    padDigits 6 n = padDigits 3 (n / 1000)
      ++ [Char.ofNat (48 + n / 100 % 10), Char.ofNat (48 + n / 10 % 10),
          Char.ofNat (48 + n % 10)] := by
  simp [padDigits, Nat.div_div_eq_div_mul]

theorem format_iso_date_shape (dt : Datetime) :
    format_iso_date dt = String.mk (padDigits 4 dt.year
      ++ '-' :: padDigits 2 dt.month ++ '-' :: padDigits 2 dt.day
      ++ 'T' :: padDigits 2 dt.hour ++ ':' :: padDigits 2 dt.minute
      ++ ':' :: padDigits 2 dt.second
      ++ '.' :: padDigits 3 (dt.microsecond / 1000) ++ ['Z']) := by
  have hsplit : strftimeIso dt = (padDigits 4 dt.year
      ++ '-' :: padDigits 2 dt.month ++ '-' :: padDigits 2 dt.day
      ++ 'T' :: padDigits 2 dt.hour ++ ':' :: padDigits 2 dt.minute
      ++ ':' :: padDigits 2 dt.second ++ ['.'])
      ++ padDigits 6 dt.microsecond := by
    simp [strftimeIso]
  rw [format_iso_date, hsplit]
  set pre := (padDigits 4 dt.year
      ++ '-' :: padDigits 2 dt.month ++ '-' :: padDigits 2 dt.day
      ++ 'T' :: padDigits 2 dt.hour ++ ':' :: padDigits 2 dt.minute
      ++ ':' :: padDigits 2 dt.second ++ ['.']) with hpre_def
  have hpre : pre.length = 20 := by
    rw [hpre_def]
    simp [padDigits_length]
  have hlen : (pre ++ padDigits 6 dt.microsecond).length - 3 = 23 := by
    simp [hpre, padDigits_length]
  rw [hlen, List.take_append_eq_append_take, hpre]
  rw [List.take_of_length_le (by rw [hpre]; omega)]
  norm_num
  rw [padDigits_six, List.take_append_eq_append_take,
    List.take_of_length_le (le_of_eq (padDigits_length 3 _)),
    padDigits_length]
  rw [hpre_def]
  simp

/-! ### Concrete test fixtures -/

/-- A receipt timestamp. -/
def dRecv : Datetime := ⟨2024, 1, 2, 3, 4, 5, 0⟩

/-- A wall-clock "now". -/
def dNow : Datetime := ⟨2024, 6, 7, 8, 9, 10, 0⟩

/-- An empty downloaded file with no extractable metadata. -/
def emptyFile : FileOnDisk := ⟨[], none, none⟩

/-- An image file whose EXIF `DateTimeOriginal` is `2023:05:01 12:00:00`. -/
def exifFile : FileOnDisk := ⟨[], some ⟨some "2023:05:01 12:00:00", none⟩, none⟩

/-- An HTTP 201 Created response with an (empty) JSON body. -/
def createdResponse : HttpResponse := ⟨201, "", some []⟩

/-- A healthy environment: allow-list `[123456789]`, server reachable,
download and POST succeed, POST answered with 201. -/
def baseEnv : Env :=
  { allowed_user_ids := [123456789], reachable := true,
    download_succeeds := true, file := emptyFile, post_succeeds := true,
    response := createdResponse, now := dNow,
    guess_type := fun _ => none, reply_raises := false,
    immich_status := "connected", user_info := "user" }

/-- `baseEnv` with the asset server unreachable. -/
def unreachableEnv : Env := { baseEnv with reachable := false }

/-- `baseEnv` holding the EXIF-dated image file. -/
def exifEnv : Env := { baseEnv with file := exifFile }

/-- `baseEnv` whose POST is answered 201 with a non-JSON body. -/
def badJsonEnv : Env := { baseEnv with response := ⟨201, "oops", none⟩ }

/-- A photo event from the allowed sender. -/
def photoEv : PhotoEvent := ⟨123456789, "photoid", dRecv, none⟩

/-! ### Claim theorems -/

/-- C8: `calculate_sha1` streams the file in fixed 64 KiB chunks (every
chunk read is non-empty and at most 65536 bytes), is deterministic (it is
a function of the file bytes), and its hex digest equals the reference
SHA-1 of the whole byte sequence, independently of the chunk size used
internally (any positive chunk size absorbs exactly the file's bytes). -/
theorem c8_sha1_streaming (file : List Nat) (c : Nat) :
    calculate_sha1 file = sha1Hex file ∧
    (∀ chunk ∈ readChunks 65536 file, chunk.length ≤ 65536 ∧ chunk ≠ []) ∧
    (0 < c → sha1Absorb c file = file) := by
  refine ⟨?_, ?_, ?_⟩
  · rw [calculate_sha1, sha1Absorb_eq 65536 (by omega) file]
  · intro chunk hmem
    exact readChunks_mem 65536 file chunk hmem
  · intro hc
    exact sha1Absorb_eq c hc file

/-- Witness for C8 at the bytes of `"abc"` and chunk size 2; the digest
value is the published SHA-1 test vector for `"abc"`. -/
theorem c8_witness :
    calculate_sha1 [97, 98, 99] = "a9993e364706816aba3e25717850c26c9cd0d89d" ∧
    calculate_sha1 [97, 98, 99] = sha1Hex [97, 98, 99] ∧
    (0 < 2 ∧ sha1Absorb 2 [97, 98, 99] = [97, 98, 99]) ∧
    ([97, 98, 99].length ≤ 65536 ∧ [97, 98, 99] ≠ ([] : List Nat)) :=
  ⟨by decide, (c8_sha1_streaming [97, 98, 99] 2).1,
   ⟨by decide, (c8_sha1_streaming [97, 98, 99] 2).2.2 (by decide)⟩,
   (c8_sha1_streaming [97, 98, 99] 2).2.1 [97, 98, 99] (by decide)⟩

/-- C6: every timestamp sent to the asset server is rendered by
`format_iso_date` as `YYYY-MM-DDTHH:MM:SS.mmmZ` — zero-padded fields, the
microseconds truncated to milliseconds, a literal `Z` appended regardless
of the source timezone; in particular an EXIF `DateTimeOriginal` of
`2023:05:01 12:00:00` reaches the server's `fileCreatedAt` form field as
`2023-05-01T12:00:00.000Z` (shown end-to-end through `handle_photo`). -/
theorem c6_timestamp_serialization :
    (∀ dt : Datetime, format_iso_date dt = String.mk (padDigits 4 dt.year
      ++ '-' :: padDigits 2 dt.month ++ '-' :: padDigits 2 dt.day
      ++ 'T' :: padDigits 2 dt.hour ++ ':' :: padDigits 2 dt.minute
      ++ ':' :: padDigits 2 dt.second
      ++ '.' :: padDigits 3 (dt.microsecond / 1000) ++ ['Z'])) ∧
    strptimeExif "2023:05:01 12:00:00" = some ⟨2023, 5, 1, 12, 0, 0, 0⟩ ∧
    format_iso_date ⟨2023, 5, 1, 12, 0, 0, 0⟩ = "2023-05-01T12:00:00.000Z" ∧
    (handle_photo exifEnv photoEv).uploadData.map UploadData.fileCreatedAt
      = some "2023-05-01T12:00:00.000Z" ∧
    (handle_photo exifEnv photoEv).replies = [Reply.uploadSuccess "image"] := by
  refine ⟨format_iso_date_shape, by decide, by decide, by decide, by decide⟩

/-- Helper: a recognised image extension decides the classification. -/
theorem get_file_type_image_ext (guess_type : String → Option String)
    (p : String) (h : SUPPORTED_IMAGE_EXTENSIONS.contains (extLower p) = true) :
    get_file_type guess_type p = "image" := by
  have h' : extLower p ∈ SUPPORTED_IMAGE_EXTENSIONS := by simpa using h
  simp [get_file_type, h']

/-- Helper: a recognised video extension decides the classification when
no image extension matches. -/
theorem get_file_type_video_ext (guess_type : String → Option String)
    (p : String)
    (h1 : SUPPORTED_IMAGE_EXTENSIONS.contains (extLower p) = false)
    (h2 : SUPPORTED_VIDEO_EXTENSIONS.contains (extLower p) = true) :
    get_file_type guess_type p = "video" := by
  have h1' : extLower p ∉ SUPPORTED_IMAGE_EXTENSIONS := by simpa using h1
  have h2' : extLower p ∈ SUPPORTED_VIDEO_EXTENSIONS := by simpa using h2
  simp [get_file_type, h1', h2']

/-- C7: `get_file_type` classifies in the fixed order image-extension,
video-extension, `video/` MIME prefix, `image/` MIME prefix, otherwise
unsupported (`"other"`): a recognised extension wins over any MIME guess,
every supported image extension maps to `"image"`, every supported video
extension maps to `"video"`, and an unknown extension with no MIME guess
maps to `"other"`. -/
theorem c7_classification_order (guess_type : String → Option String)
    (file_path m : String) :
    (SUPPORTED_IMAGE_EXTENSIONS.contains (extLower file_path) = true →
      get_file_type guess_type file_path = "image") ∧
    (SUPPORTED_IMAGE_EXTENSIONS.contains (extLower file_path) = false →
      SUPPORTED_VIDEO_EXTENSIONS.contains (extLower file_path) = true →
      get_file_type guess_type file_path = "video") ∧
    (SUPPORTED_IMAGE_EXTENSIONS.contains (extLower file_path) = false →
      SUPPORTED_VIDEO_EXTENSIONS.contains (extLower file_path) = false →
      guess_type file_path = some m → m.startsWith "video/" = true →
      get_file_type guess_type file_path = "video") ∧
    (SUPPORTED_IMAGE_EXTENSIONS.contains (extLower file_path) = false →
      SUPPORTED_VIDEO_EXTENSIONS.contains (extLower file_path) = false →
      guess_type file_path = some m → m.startsWith "video/" = false →
      m.startsWith "image/" = true →
      get_file_type guess_type file_path = "image") ∧
    (SUPPORTED_IMAGE_EXTENSIONS.contains (extLower file_path) = false →
      SUPPORTED_VIDEO_EXTENSIONS.contains (extLower file_path) = false →
      guess_type file_path = some m → m.startsWith "video/" = false →
      m.startsWith "image/" = false →
      get_file_type guess_type file_path = "other") ∧
    (SUPPORTED_IMAGE_EXTENSIONS.contains (extLower file_path) = false →
      SUPPORTED_VIDEO_EXTENSIONS.contains (extLower file_path) = false →
      guess_type file_path = none →
      get_file_type guess_type file_path = "other") ∧
    (∀ e ∈ SUPPORTED_IMAGE_EXTENSIONS,
      get_file_type guess_type ("file" ++ e) = "image") ∧
    (∀ e ∈ SUPPORTED_VIDEO_EXTENSIONS,
      get_file_type guess_type ("file" ++ e) = "video") := by
  refine ⟨?_, ?_, ?_, ?_, ?_, ?_, ?_, ?_⟩
  · exact get_file_type_image_ext guess_type file_path
  · exact get_file_type_video_ext guess_type file_path
  · intro h1 h2 h3 h4
    have h1' : extLower file_path ∉ SUPPORTED_IMAGE_EXTENSIONS := by simpa using h1
    have h2' : extLower file_path ∉ SUPPORTED_VIDEO_EXTENSIONS := by simpa using h2
    simp [get_file_type, h1', h2', h3, h4]
  · intro h1 h2 h3 h4 h5
    have h1' : extLower file_path ∉ SUPPORTED_IMAGE_EXTENSIONS := by simpa using h1
    have h2' : extLower file_path ∉ SUPPORTED_VIDEO_EXTENSIONS := by simpa using h2
    simp [get_file_type, h1', h2', h3, h4, h5]
  · intro h1 h2 h3 h4 h5
    have h1' : extLower file_path ∉ SUPPORTED_IMAGE_EXTENSIONS := by simpa using h1
    have h2' : extLower file_path ∉ SUPPORTED_VIDEO_EXTENSIONS := by simpa using h2
    simp [get_file_type, h1', h2', h3, h4, h5]
  · intro h1 h2 h3
    have h1' : extLower file_path ∉ SUPPORTED_IMAGE_EXTENSIONS := by simpa using h1
    have h2' : extLower file_path ∉ SUPPORTED_VIDEO_EXTENSIONS := by simpa using h2
    simp [get_file_type, h1', h2', h3]
  · intro e he
    fin_cases he <;> exact get_file_type_image_ext guess_type _ (by decide)
  · intro e he
    fin_cases he <;>
      exact get_file_type_video_ext guess_type _ (by decide) (by decide)

/-- Witness for C7: a `.JPG` extension beats a `video/mp4` MIME guess,
and an unknown extension with no guess is unsupported. -/
theorem c7_witness :
    (SUPPORTED_IMAGE_EXTENSIONS.contains (extLower "x.JPG") = true ∧
      get_file_type (fun _ => some "video/mp4") "x.JPG" = "image") ∧
    (SUPPORTED_IMAGE_EXTENSIONS.contains (extLower "x.xyz") = false ∧
      SUPPORTED_VIDEO_EXTENSIONS.contains (extLower "x.xyz") = false ∧
      get_file_type (fun _ => none) "x.xyz" = "other") :=
  ⟨⟨by decide,
    (c7_classification_order (fun _ => some "video/mp4") "x.JPG" "video/mp4").1
      (by decide)⟩,
   ⟨by decide, by decide,
    (c7_classification_order (fun _ => none) "x.xyz" "").2.2.2.2.2.1
      (by decide) (by decide) rfl⟩⟩

/-- C4: the creation-date resolution is a strict first-success-wins
chain: a parsable EXIF `DateTimeOriginal` (or, failing that, `DateTime`)
is used even when a message timestamp is available; unusable EXIF makes
`get_image_metadata` raise (it never substitutes file-system modification
time, which it does not even read), after which the message date — the
forwarded timestamp when present, else the receipt timestamp — is used;
with no metadata and no message date the current time is used. -/
theorem c4_created_at_fallback (f : FileOnDisk) (e : ExifData) (s : String)
    (dt fd now rd : Datetime) (md : Option Datetime) :
    (f.image_exif = some e → e.dateTimeOriginal = some s →
      strptimeExif s = some dt →
      resolve_created_at "image" f md now = format_iso_date dt) ∧
    (f.image_exif = some e → e.dateTimeOriginal = none →
      e.dateTime = some s → strptimeExif s = some dt →
      resolve_created_at "image" f md now = format_iso_date dt) ∧
    get_image_metadata none now = Except.error "Could not extract image metadata" ∧
    get_image_metadata (some ⟨none, none⟩) now
      = Except.error "Could not extract image metadata" ∧
    (e.dateTimeOriginal = some s → strptimeExif s = none →
      get_image_metadata (some e) now
        = Except.error "Could not extract image metadata") ∧
    (f.image_exif = none →
      resolve_created_at "image" f (some fd) now = format_iso_date fd) ∧
    message_date_of (some fd) rd = fd ∧
    message_date_of none rd = rd ∧
    (f.image_exif = none →
      resolve_created_at "image" f none now = format_iso_date now) := by
  refine ⟨?_, ?_, rfl, rfl, ?_, ?_, rfl, rfl, ?_⟩
  · intro h1 h2 h3
    simp [resolve_created_at, get_image_metadata, h1, h2, h3]
  · intro h1 h2 h3 h4
    simp [resolve_created_at, get_image_metadata, h1, h2, h3, h4]
  · intro h1 h2
    simp [get_image_metadata, h1, h2]
  · intro h1
    simp [resolve_created_at, get_image_metadata, h1]
  · intro h1
    simp [resolve_created_at, get_image_metadata, h1]

/-- Witness for C4: the EXIF-dated image ignores the message date; the
metadata-free image falls back to it. -/
theorem c4_witness :
    (exifFile.image_exif = some ⟨some "2023:05:01 12:00:00", none⟩ ∧
      strptimeExif "2023:05:01 12:00:00" = some ⟨2023, 5, 1, 12, 0, 0, 0⟩ ∧
      resolve_created_at "image" exifFile (some dRecv) dNow
        = format_iso_date ⟨2023, 5, 1, 12, 0, 0, 0⟩) ∧
    (emptyFile.image_exif = none ∧
      resolve_created_at "image" emptyFile (some dRecv) dNow
        = format_iso_date dRecv) ∧
    (emptyFile.image_exif = none ∧
      resolve_created_at "image" emptyFile none dNow = format_iso_date dNow) :=
  ⟨⟨rfl, by decide,
    (c4_created_at_fallback exifFile ⟨some "2023:05:01 12:00:00", none⟩
      "2023:05:01 12:00:00" ⟨2023, 5, 1, 12, 0, 0, 0⟩ dRecv dNow dRecv
      (some dRecv)).1 rfl rfl (by decide)⟩,
   ⟨rfl,
    (c4_created_at_fallback emptyFile ⟨none, none⟩ "" dRecv dRecv dNow dRecv
      (some dRecv)).2.2.2.2.2.1 rfl⟩,
   ⟨rfl,
    (c4_created_at_fallback emptyFile ⟨none, none⟩ "" dRecv dRecv dNow dRecv
      none).2.2.2.2.2.2.2.2 rfl⟩⟩

/-- C9: for every document event from a sender not in the allow-list,
with the asset server reachable, `handle_document` sends no reply and
creates no file but exits via an `UnboundLocalError` on `temp_file_path`
(the `finally` clause reads the local before its assignment point) rather
than returning normally. -/
theorem c9_document_denied_unbound_local (env : Env) (ev : DocEvent)
    (hreach : env.reachable = true)
    (hdenied : is_user_allowed env.allowed_user_ids ev.user_id = false) :
    handle_document env ev =
      { replies := [], tempCreated := false, tempAtReturn := false,
        exit := Exit.unboundLocal "temp_file_path", uploadData := none } := by
  simp [handle_document, hreach, hdenied]

/-- Witness for C9: user 555 is not on the allow-list `[123456789]`. -/
theorem c9_witness :
    (baseEnv.reachable = true ∧
      is_user_allowed baseEnv.allowed_user_ids 555 = false) ∧
    handle_document baseEnv ⟨555, "fid", "a.jpg", dRecv, none⟩ =
      { replies := [], tempCreated := false, tempAtReturn := false,
        exit := Exit.unboundLocal "temp_file_path", uploadData := none } :=
  ⟨⟨rfl, by decide⟩,
   c9_document_denied_unbound_local baseEnv ⟨555, "fid", "a.jpg", dRecv, none⟩
     rfl (by decide)⟩

/-- C3: for every document, photo or video event, in every environment,
the temporary file is absent from disk when the handler returns — in
particular whenever one was materialised, across the Created, Duplicate,
Rejected, Failed and unexpected-exception outcomes (the `finally` clause
removes it on every exit path on which it exists). -/
theorem c3_temp_file_cleanup (env : Env) (dev : DocEvent) (pev : PhotoEvent)
    (vev : VideoEvent) :
    (handle_document env dev).tempAtReturn = false ∧
    (handle_photo env pev).tempAtReturn = false ∧
    (handle_video env vev).tempAtReturn = false := by
  refine ⟨?_, ?_, ?_⟩
  · unfold handle_document
    repeat' split
    all_goals rfl
  · unfold handle_photo
    repeat' split
    all_goals rfl
  · unfold handle_video
    repeat' split
    all_goals rfl

/-- C2 counterexample: the claim promises zero replies to an unauthorized
sender regardless of asset-server reachability, but the connectivity
check precedes the permission gate in all three media handlers, so an
unauthorized video sender receives the connection-error reply when the
server is unreachable. -/
theorem c2_counterexample :
    (handle_video unreachableEnv ⟨555, "fid", none, 100, dRecv, none⟩).replies
      = [Reply.connectError] ∧
    is_user_allowed unreachableEnv.allowed_user_ids 555 = false ∧
    unreachableEnv.allowed_user_ids ≠ [] := by
  refine ⟨by decide, by decide, by decide⟩

/-- C2 (amended): for every document, photo or video event whose sender
is absent from the non-empty allow-list, when the asset-server
connectivity pre-check succeeds, the handler sends zero replies and
materialises zero temporary files. -/
theorem c2_unauthorized_silent (env : Env) (dev : DocEvent)
    (pev : PhotoEvent) (vev : VideoEvent) (hreach : env.reachable = true) :
    (is_user_allowed env.allowed_user_ids dev.user_id = false →
      (handle_document env dev).replies = [] ∧
      (handle_document env dev).tempCreated = false) ∧
    (is_user_allowed env.allowed_user_ids pev.user_id = false →
      (handle_photo env pev).replies = [] ∧
      (handle_photo env pev).tempCreated = false) ∧
    (is_user_allowed env.allowed_user_ids vev.user_id = false →
      (handle_video env vev).replies = [] ∧
      (handle_video env vev).tempCreated = false) := by
  refine ⟨?_, ?_, ?_⟩
  · intro h
    simp [handle_document, hreach, h]
  · intro h
    simp [handle_photo, hreach, h]
  · intro h
    simp [handle_video, hreach, h]

/-- Witness for C2: user 555 against allow-list `[123456789]`, server
reachable. -/
theorem c2_witness :
    (baseEnv.reachable = true ∧
      is_user_allowed baseEnv.allowed_user_ids 555 = false) ∧
    ((handle_document baseEnv ⟨555, "f", "a.jpg", dRecv, none⟩).replies = [] ∧
      (handle_document baseEnv ⟨555, "f", "a.jpg", dRecv, none⟩).tempCreated
        = false) ∧
    ((handle_photo baseEnv ⟨555, "p", dRecv, none⟩).replies = [] ∧
      (handle_photo baseEnv ⟨555, "p", dRecv, none⟩).tempCreated = false) ∧
    ((handle_video baseEnv ⟨555, "v", none, 100, dRecv, none⟩).replies = [] ∧
      (handle_video baseEnv ⟨555, "v", none, 100, dRecv, none⟩).tempCreated
        = false) :=
  ⟨⟨rfl, by decide⟩,
   (c2_unauthorized_silent baseEnv ⟨555, "f", "a.jpg", dRecv, none⟩
     ⟨555, "p", dRecv, none⟩ ⟨555, "v", none, 100, dRecv, none⟩ rfl).1
     (by decide),
   (c2_unauthorized_silent baseEnv ⟨555, "f", "a.jpg", dRecv, none⟩
     ⟨555, "p", dRecv, none⟩ ⟨555, "v", none, 100, dRecv, none⟩ rfl).2.1
     (by decide),
   (c2_unauthorized_silent baseEnv ⟨555, "f", "a.jpg", dRecv, none⟩
     ⟨555, "p", dRecv, none⟩ ⟨555, "v", none, 100, dRecv, none⟩ rfl).2.2
     (by decide)⟩

/-- C5 counterexample: the claim promises that HTTP 201 always yields the
Created reply, but `upload_to_immich` calls `response.json()` on every
200/201 response before replying, so a 201 whose body is not JSON raises
and the blanket handler sends the generic upload-error reply instead. -/
theorem c5_counterexample :
    (upload_to_immich badJsonEnv emptyFile "a.jpg" "image" none).1
      = [Reply.uploadException] ∧
    (upload_to_immich badJsonEnv emptyFile "a.jpg" "image" none).1
      ≠ [Reply.uploadSuccess "image"] ∧
    badJsonEnv.response.status_code = 201 ∧
    badJsonEnv.response.json = none := by
  refine ⟨by decide, by decide, by decide, by decide⟩

/-- C5 (amended): exactly one reply is sent per upload attempt (no
retry); HTTP 201 with a JSON body yields Created; HTTP 200 with JSON
field `status = "duplicate"` yields Duplicate alone; any other HTTP 200
with a JSON body yields Created; any other status yields Failed carrying
the response body text verbatim; a 200/201 whose body is not JSON yields
the generic upload-error reply. -/
theorem c5_response_interpretation (env : Env) (f : FileOnDisk)
    (file_name file_type : String) (md : Option Datetime)
    (j : List (String × String)) (hpost : env.post_succeeds = true) :
    (env.response.status_code = 201 → env.response.json = some j →
      (upload_to_immich env f file_name file_type md).1
        = [Reply.uploadSuccess file_type]) ∧
    (env.response.status_code = 200 → env.response.json = some j →
      List.lookup "status" j = some "duplicate" →
      (upload_to_immich env f file_name file_type md).1
        = [Reply.duplicate file_type]) ∧
    (env.response.status_code = 200 → env.response.json = some j →
      List.lookup "status" j ≠ some "duplicate" →
      (upload_to_immich env f file_name file_type md).1
        = [Reply.uploadSuccess file_type]) ∧
    (env.response.status_code ≠ 200 → env.response.status_code ≠ 201 →
      (upload_to_immich env f file_name file_type md).1
        = [Reply.uploadFailed file_type env.response.text]) ∧
    ((env.response.status_code = 200 ∨ env.response.status_code = 201) →
      env.response.json = none →
      (upload_to_immich env f file_name file_type md).1
        = [Reply.uploadException]) ∧
    (upload_to_immich env f file_name file_type md).1.length = 1 := by
  refine ⟨?_, ?_, ?_, ?_, ?_, ?_⟩
  · intro h1 h2
    simp [upload_to_immich, hpost, h1, h2]
  · intro h1 h2 h3
    simp [upload_to_immich, hpost, h1, h2, h3]
  · intro h1 h2 h3
    simp [upload_to_immich, hpost, h1, h2, h3]
  · intro h1 h2
    simp [upload_to_immich, hpost, h1, h2]
  · intro h1 h2
    rcases h1 with h1 | h1 <;> simp [upload_to_immich, hpost, h1, h2]
  · unfold upload_to_immich
    repeat' split
    all_goals rfl

/-- Witness for C5: a 201 response with a JSON body yields the success
reply. -/
theorem c5_witness :
    (baseEnv.post_succeeds = true ∧ baseEnv.response.status_code = 201 ∧
      baseEnv.response.json = some []) ∧
    (upload_to_immich baseEnv emptyFile "a.jpg" "image" none).1
      = [Reply.uploadSuccess "image"] :=
  ⟨⟨rfl, rfl, rfl⟩,
   (c5_response_interpretation baseEnv emptyFile "a.jpg" "image" none []
     rfl).1 rfl rfl⟩

/-- A 21 MiB video event from the allowed sender, as in the repository's
own large-video tests. -/
def videoEv21 : VideoEvent :=
  ⟨123456789, "test_file_id", some "large_video.mp4", 22020096, dRecv, none⟩

/-- C1: `handle_video` in `app/bot.py` enforces no maximum size at the
Received step — its result is independent of the declared `file_size`,
and a 21 MiB video with no local-gateway configuration (none exists in
the module: there is no `MAX_FILE_SIZE` or `TELEGRAM_API_URL`) is
downloaded and uploaded rather than rejected with a limit-naming message,
contradicting the repository's own tests. -/
theorem c1_no_size_limit_enforced :
    (∀ (env : Env) (ev : VideoEvent) (s1 s2 : Nat),
      handle_video env { ev with file_size := s1 }
        = handle_video env { ev with file_size := s2 }) ∧
    (handle_video baseEnv videoEv21).tempCreated = true ∧
    (handle_video baseEnv videoEv21).replies = [Reply.uploadSuccess "video"] ∧
    (handle_video baseEnv videoEv21).exit = Exit.normal := by
  refine ⟨fun env ev s1 s2 => rfl, by decide, by decide, by decide⟩

/-- C10: the four command handlers reply identically for any two sender
identifiers (they never consult the permission gate) and each always
sends exactly one reply, while the text handler and each media handler do
distinguish an allow-listed sender from one absent from the list. -/
theorem c10_commands_skip_permission_gate :
    (∀ (env : Env) (u1 u2 : Int),
      help_command env u1 = help_command env u2 ∧
      start env u1 = start env u2 ∧
      version env u1 = version env u2 ∧
      files env u1 = files env u2 ∧
      (help_command env u1).length = 1 ∧ (start env u1).length = 1 ∧
      (version env u1).length = 1 ∧ (files env u1).length = 1) ∧
    (∃ (env : Env) (u1 u2 : Int),
      handle_message env u1 ≠ handle_message env u2) ∧
    (∃ (env : Env) (ev1 ev2 : DocEvent),
      ev1 = { ev2 with user_id := ev1.user_id } ∧
      handle_document env ev1 ≠ handle_document env ev2) ∧
    (∃ (env : Env) (ev1 ev2 : PhotoEvent),
      ev1 = { ev2 with user_id := ev1.user_id } ∧
      handle_photo env ev1 ≠ handle_photo env ev2) ∧
    (∃ (env : Env) (ev1 ev2 : VideoEvent),
      ev1 = { ev2 with user_id := ev1.user_id } ∧
      handle_video env ev1 ≠ handle_video env ev2) := by
  refine ⟨fun env u1 u2 => ⟨rfl, rfl, rfl, rfl, rfl, rfl, rfl, rfl⟩,
    ⟨baseEnv, 123456789, 555, by decide⟩,
    ⟨baseEnv, ⟨123456789, "f", "a.jpg", dRecv, none⟩,
      ⟨555, "f", "a.jpg", dRecv, none⟩, rfl, by decide⟩,
    ⟨baseEnv, ⟨123456789, "p", dRecv, none⟩, ⟨555, "p", dRecv, none⟩,
      rfl, by decide⟩,
    ⟨baseEnv, ⟨123456789, "v", none, 100, dRecv, none⟩,
      ⟨555, "v", none, 100, dRecv, none⟩, rfl, by decide⟩⟩

end ImmichBot
